import Mathlib

/-!
Shallow embedding of yekta/lambdalabs-bot (src/main.go).

The repository holds two near-duplicate variants of one Go program: a bot
that polls the Lambda Labs capacity endpoint for a configured instance
type and launches a single instance when capacity appears.  One variant
additionally serves a health endpoint and records a process-wide
HealthStatus.  Network calls are modelled by environment oracles: the
response handed to the program on each call.
-/

/-- Opaque JSON values, used for the pass-through launch result payload. -/
inductive Json where
  | null
  | bool (b : Bool)
  | num (n : Int)
  | str (s : String)
  | arr (elems : List Json)
  | obj (fields : List (String × Json))

/-- Go struct Region: a region name. -/
structure Region where
  name : String
deriving Repr, DecidableEq

/-- Go struct InstanceTypeData: regions with capacity for one instance type. -/
structure InstanceTypeData where
  regionsWithCapacityAvailable : List Region
deriving Repr, DecidableEq

/-- Go struct InstanceTypes: the availability catalog, a map from instance
type name to its data.  Go maps have unique keys; we embed the map as an
association list looked up with List.lookup. -/
structure InstanceTypes where
  data : List (String × InstanceTypeData)
deriving Repr, DecidableEq

/-- Go struct LaunchPayload: the JSON body of the launch request. -/
structure LaunchPayload where
  regionName : String
  instanceTypeName : String
  sshKeyNames : List String
  quantity : Int
deriving Repr, DecidableEq

/-- Go struct HealthStatus.  Result is nil (none) unless set; Error is the
empty string unless set (both carry omitempty tags in the source). -/
structure HealthStatus where
  status : String
  result : Option Json
  error : String

/-- The program's configuration globals, set once by init(): apiKey,
instanceTypeName, sshKeyName, checkInterval, errorWait. -/
structure Config where
  apiKey : String
  instanceTypeName : String
  sshKeyName : String
  checkInterval : Int
  errorWait : Int

/-- The health-serving variant additionally has a port global. -/
structure ServerConfig extends Config where
  port : Int

/-- Go global baseUrl. -/
def baseUrl : String := "https://cloud.lambdalabs.com/api/v1/"

/-- Go os.Getenv: the empty string when the variable is absent. -/
def goGetenv (env : String → Option String) (key : String) : String :=
  (env key).getD ""

/-- Decimal digit value of a character, none for a non-digit. -/
def digitVal (c : Char) : Option Nat :=
  if '0' ≤ c ∧ c ≤ '9' then some (c.toNat - '0'.toNat) else none

/-- Accumulate decimal digits; none as soon as a non-digit appears. -/
def parseDigitsAux : List Char → Nat → Option Nat
  | [], acc => some acc
  | c :: rest, acc =>
      match digitVal c with
      | some d => parseDigitsAux rest (acc * 10 + d)
      | none => none

/-- Parse a non-empty all-digit string; none otherwise. -/
def parseDigits (cs : List Char) : Option Nat :=
  match cs with
  | [] => none
  | _ => parseDigitsAux cs 0

/-- Successful result of Go strconv.Atoi on a base-10 string: an optional
sign followed by at least one digit; none on any syntax error.  (Range
overflow of the machine int is not modelled; the configuration values in
question are small.) -/
def parseGoInt (s : String) : Option Int :=
  match s.data with
  | [] => none
  | '+' :: rest => (parseDigits rest).map (fun n => (n : Int))
  | '-' :: rest => (parseDigits rest).map (fun n => -(n : Int))
  | cs => (parseDigits cs).map (fun n => (n : Int))

/-- Go strconv.Atoi with the error discarded, as the source does with
`value, _ = strconv.Atoi(...)`: the parsed value, or 0 on error. -/
def goAtoi (s : String) : Int :=
  (parseGoInt s).getD 0

/-- The init() pattern for integer configuration: Atoi with the error
discarded, then the default when the result is 0. -/
def initIntVar (env : String → Option String) (key : String) (dflt : Int) : Int :=
  let v := goAtoi (goGetenv env key)
  if v = 0 then dflt else v

/-- The init() pattern for the instance type: default when unset. -/
def initInstanceTypeName (env : String → Option String) : String :=
  let s := goGetenv env "INSTANCE_TYPE_NAME"
  if s = "" then "gpu_1x_a6000" else s

/-- init() of the plain variant (no health endpoint): apiKey, instance
type with default, ssh key, checkInterval default 30, errorWait default 10. -/
def initConfig (env : String → Option String) : Config :=
  { apiKey := goGetenv env "LAMBDA_API_KEY"
    instanceTypeName := initInstanceTypeName env
    sshKeyName := goGetenv env "SSH_KEY_NAME"
    checkInterval := initIntVar env "CHECK_INTERVAL_SECONDS" 30
    errorWait := initIntVar env "ERROR_WAIT_SECONDS" 10 }

/-- init() of the health-serving variant: the same fields plus the port,
default 5000. -/
def initServerConfig (env : String → Option String) : ServerConfig :=
  { apiKey := goGetenv env "LAMBDA_API_KEY"
    instanceTypeName := initInstanceTypeName env
    sshKeyName := goGetenv env "SSH_KEY_NAME"
    checkInterval := initIntVar env "CHECK_INTERVAL_SECONDS" 30
    errorWait := initIntVar env "ERROR_WAIT_SECONDS" 10
    port := initIntVar env "PORT" 5000 }

/-- An environment with no variables set. -/
def emptyEnv : String → Option String := fun _ => none

/-- Go checkInstanceAvailability: the first region with capacity for the
configured instance type, or the empty string; the Go error result is the
second component and is nil (none) on every path. -/
def checkInstanceAvailability (cfg : Config) (instanceTypes : InstanceTypes) :
    String × Option String :=
  match instanceTypes.data.lookup cfg.instanceTypeName with
  | some data =>
      match data.regionsWithCapacityAvailable with
      | r :: _ => (r.name, none)
      | [] => ("", none)
  | none => ("", none)

/-- An outbound HTTP request as the program constructs it. -/
structure HttpRequest where
  method : String
  url : String
  basicAuthUser : String
  basicAuthPass : String
  contentType : Option String
  body : Option Json

/-- The LaunchPayload value built inside launchInstance. -/
def mkLaunchPayload (cfg : Config) (regionName : String) : LaunchPayload :=
  { regionName := regionName
    instanceTypeName := cfg.instanceTypeName
    sshKeyNames := [cfg.sshKeyName]
    quantity := 1 }

/-- json.Marshal of a LaunchPayload, with Go struct-tag field names in
declaration order. -/
def LaunchPayload.marshal (p : LaunchPayload) : Json :=
  Json.obj [("region_name", Json.str p.regionName),
            ("instance_type_name", Json.str p.instanceTypeName),
            ("ssh_key_names", Json.arr (p.sshKeyNames.map Json.str)),
            ("quantity", Json.num p.quantity)]

/-- The POST request launchInstance sends: launch endpoint, basic auth
with the api key and empty password, JSON content type, marshalled payload. -/
def launchRequest (cfg : Config) (regionName : String) : HttpRequest :=
  { method := "POST"
    url := baseUrl ++ "instance-operations/launch"
    basicAuthUser := cfg.apiKey
    basicAuthPass := ""
    contentType := some "application/json"
    body := some (mkLaunchPayload cfg regionName).marshal }

/-- Go launchInstance: send the launch request; on transport or decode
failure propagate the error, on success return the decoded response body
verbatim.  The network and body decoding are the oracle net, mapping the
request to either an error or the decoded JSON response. -/
def launchInstance (cfg : Config) (net : HttpRequest → Except String Json)
    (regionName : String) : Except String Json :=
  match net (launchRequest cfg regionName) with
  | .error e => .error e
  | .ok result => .ok result

/-- One iteration's environment: the outcome the world hands to
getInstanceTypes on this iteration (its transport and decode collapsed
into one Except, as the loop only distinguishes success from failure),
and the network behaviour seen by launchInstance if it is called. -/
structure Env where
  fetch : Except String InstanceTypes
  net : HttpRequest → Except String Json

/-- Observable events of one loop-body iteration. -/
structure IterEvents where
  fetchCalled : Bool
  launchCalled : Bool
  launchRegion : Option String
  launchSucceeded : Bool
  slept : Option Int
deriving Repr, DecidableEq

/-- Events of an iteration in which the loop has already exited: nothing
happens. -/
def idleEvents : IterEvents :=
  { fetchCalled := false, launchCalled := false, launchRegion := none
    launchSucceeded := false, slept := none }

/-- Loop state: the healthStatus global of the health-serving variant, and
whether the loop body has executed break. -/
structure LoopState where
  health : HealthStatus
  done : Bool

/-- State when launchInstanceLoop starts: main has just set healthStatus
to running, and the loop has not exited. -/
def initLoopState : LoopState :=
  { health := { status := "running", result := none, error := "" }, done := false }

/-- One iteration of launchInstanceLoop (health-serving variant), returning
the next state and the iteration's events.  Mirrors the Go body: fetch,
error branch; availability check, error branch; nonempty region: launch,
error branch or record result and break; empty region: sleep the check
interval. -/
def stepLoop (cfg : Config) (st : LoopState) (env : Env) : LoopState × IterEvents :=
  if st.done then (st, idleEvents)
  else
    match env.fetch with
    | .error msg =>
        ({ health := { status := "error", result := none, error := msg }, done := false },
         { fetchCalled := true, launchCalled := false, launchRegion := none
           launchSucceeded := false, slept := some cfg.errorWait })
    | .ok instanceTypes =>
        let checked := checkInstanceAvailability cfg instanceTypes
        match checked.2 with
        | some msg =>
            ({ health := { status := "error", result := none, error := msg }, done := false },
             { fetchCalled := true, launchCalled := false, launchRegion := none
               launchSucceeded := false, slept := some cfg.errorWait })
        | none =>
            if checked.1 ≠ "" then
              match launchInstance cfg env.net checked.1 with
              | .error msg =>
                  ({ health := { status := "error", result := none, error := msg }, done := false },
                   { fetchCalled := true, launchCalled := true, launchRegion := some checked.1
                     launchSucceeded := false, slept := some cfg.errorWait })
              | .ok result =>
                  ({ health := { status := "instance launched", result := some result, error := "" },
                     done := true },
                   { fetchCalled := true, launchCalled := true, launchRegion := some checked.1
                     launchSucceeded := true, slept := none })
            else
              (st, { fetchCalled := true, launchCalled := false, launchRegion := none
                     launchSucceeded := false, slept := some cfg.checkInterval })

/-- Run the loop over a finite schedule of iteration environments,
collecting the final state and the per-iteration events. -/
def runLoop (cfg : Config) (st : LoopState) : List Env → LoopState × List IterEvents
  | [] => (st, [])
  | env :: envs =>
      let step := stepLoop cfg st env
      let rest := runLoop cfg step.1 envs
      (rest.1, step.2 :: rest.2)

/-- Number of iterations whose launch call returned without error. -/
def launchCount (evs : List IterEvents) : Nat :=
  evs.countP (fun ev => ev.launchSucceeded)

/-- checkInstanceAvailability returns a nil error on every path. -/
theorem checkInstanceAvailability_snd (cfg : Config) (instanceTypes : InstanceTypes) :
    (checkInstanceAvailability cfg instanceTypes).2 = none := by
  rcases h : instanceTypes.data.lookup cfg.instanceTypeName with _ | data
  · simp [checkInstanceAvailability, h]
  · rcases hr : data.regionsWithCapacityAvailable with _ | ⟨r, rs⟩ <;>
      simp [checkInstanceAvailability, h, hr]

/-- Once the loop body has exited, an iteration changes nothing and makes
no calls. -/
theorem stepLoop_done (cfg : Config) (st : LoopState) (env : Env)
    (h : st.done = true) : stepLoop cfg st env = (st, idleEvents) := by
  simp [stepLoop, h]

/-- Fetch failure: record the error, sleep errorWait, stay not done. -/
theorem stepLoop_fetch_err (cfg : Config) (st : LoopState) (env : Env) (msg : String)
    (h : st.done = false) (hf : env.fetch = .error msg) :
    stepLoop cfg st env =
      ({ health := { status := "error", result := none, error := msg }, done := false },
       { fetchCalled := true, launchCalled := false, launchRegion := none
         launchSucceeded := false, slept := some cfg.errorWait }) := by
  simp [stepLoop, h, hf]

/-- Fetch success with no available region: no launch, sleep the check
interval, state unchanged. -/
theorem stepLoop_no_region (cfg : Config) (st : LoopState) (env : Env)
    (instanceTypes : InstanceTypes)
    (h : st.done = false) (hf : env.fetch = .ok instanceTypes)
    (hr : (checkInstanceAvailability cfg instanceTypes).1 = "") :
    stepLoop cfg st env =
      (st, { fetchCalled := true, launchCalled := false, launchRegion := none
             launchSucceeded := false, slept := some cfg.checkInterval }) := by
  simp [stepLoop, h, hf, checkInstanceAvailability_snd, hr]

/-- Fetch success, available region, launch failure: record the error,
sleep errorWait, stay not done. -/
theorem stepLoop_launch_err (cfg : Config) (st : LoopState) (env : Env)
    (instanceTypes : InstanceTypes) (msg : String)
    (h : st.done = false) (hf : env.fetch = .ok instanceTypes)
    (hr : (checkInstanceAvailability cfg instanceTypes).1 ≠ "")
    (hl : launchInstance cfg env.net (checkInstanceAvailability cfg instanceTypes).1 =
          .error msg) :
    stepLoop cfg st env =
      ({ health := { status := "error", result := none, error := msg }, done := false },
       { fetchCalled := true, launchCalled := true
         launchRegion := some (checkInstanceAvailability cfg instanceTypes).1
         launchSucceeded := false, slept := some cfg.errorWait }) := by
  simp [stepLoop, h, hf, checkInstanceAvailability_snd, hr, hl]

/-- Fetch success, available region, launch success: record the result,
break out of the loop with no sleep. -/
theorem stepLoop_launch_ok (cfg : Config) (st : LoopState) (env : Env)
    (instanceTypes : InstanceTypes) (result : Json)
    (h : st.done = false) (hf : env.fetch = .ok instanceTypes)
    (hr : (checkInstanceAvailability cfg instanceTypes).1 ≠ "")
    (hl : launchInstance cfg env.net (checkInstanceAvailability cfg instanceTypes).1 =
          .ok result) :
    stepLoop cfg st env =
      ({ health := { status := "instance launched", result := some result, error := "" },
         done := true },
       { fetchCalled := true, launchCalled := true
         launchRegion := some (checkInstanceAvailability cfg instanceTypes).1
         launchSucceeded := true, slept := none }) := by
  simp [stepLoop, h, hf, checkInstanceAvailability_snd, hr, hl]

/-- Unfolding lemma: launchCount over a cons. -/
theorem launchCount_cons (ev : IterEvents) (evs : List IterEvents) :
    launchCount (ev :: evs) =
      launchCount evs + (if ev.launchSucceeded then 1 else 0) := by
  simp [launchCount, List.countP_cons]

/-- The events of a run are the head step's events followed by the rest. -/
theorem runLoop_cons_snd (cfg : Config) (st : LoopState) (env : Env) (envs : List Env) :
    (runLoop cfg st (env :: envs)).2 =
      (stepLoop cfg st env).2 :: (runLoop cfg (stepLoop cfg st env).1 envs).2 := by
  simp [runLoop]

/-- The final state of a run is the final state of the tail run. -/
theorem runLoop_cons_fst (cfg : Config) (st : LoopState) (env : Env) (envs : List Env) :
    (runLoop cfg st (env :: envs)).1 =
      (runLoop cfg (stepLoop cfg st env).1 envs).1 := by
  simp [runLoop]

/-- After the loop body has exited, running any schedule leaves the state
unchanged and produces only idle events. -/
theorem runLoop_done (cfg : Config) (st : LoopState) (envs : List Env)
    (h : st.done = true) :
    runLoop cfg st envs = (st, envs.map fun _ => idleEvents) := by
  induction envs with
  | nil => simp [runLoop]
  | cons env envs ih => simp [runLoop, stepLoop_done cfg st env h, ih]

/-- Running an appended schedule is running the two parts in sequence. -/
theorem runLoop_append (cfg : Config) (st : LoopState) (l1 l2 : List Env) :
    runLoop cfg st (l1 ++ l2) =
      ((runLoop cfg (runLoop cfg st l1).1 l2).1,
       (runLoop cfg st l1).2 ++ (runLoop cfg (runLoop cfg st l1).1 l2).2) := by
  induction l1 generalizing st with
  | nil => simp [runLoop]
  | cons env l1 ih => simp [runLoop, ih]

/-- A step from a live state whose events report a successful launch has
exited the loop and did not sleep. -/
theorem stepLoop_succ_char (cfg : Config) (st : LoopState) (env : Env)
    (h : st.done = false)
    (hs : (stepLoop cfg st env).2.launchSucceeded = true) :
    (stepLoop cfg st env).1.done = true ∧ (stepLoop cfg st env).2.slept = none := by
  cases hf : env.fetch with
  | error msg =>
      rw [stepLoop_fetch_err cfg st env msg h hf] at hs
      simp at hs
  | ok instanceTypes =>
      by_cases hr : (checkInstanceAvailability cfg instanceTypes).1 = ""
      · rw [stepLoop_no_region cfg st env instanceTypes h hf hr] at hs
        simp at hs
      · cases hl : launchInstance cfg env.net (checkInstanceAvailability cfg instanceTypes).1 with
        | error msg =>
            rw [stepLoop_launch_err cfg st env instanceTypes msg h hf hr hl] at hs
            simp at hs
        | ok result =>
            rw [stepLoop_launch_ok cfg st env instanceTypes result h hf hr hl]
            exact ⟨rfl, rfl⟩

/-- A step from a live state with no successful launch leaves the loop
live. -/
theorem stepLoop_not_succ (cfg : Config) (st : LoopState) (env : Env)
    (h : st.done = false)
    (hs : (stepLoop cfg st env).2.launchSucceeded = false) :
    (stepLoop cfg st env).1.done = false := by
  cases hf : env.fetch with
  | error msg => rw [stepLoop_fetch_err cfg st env msg h hf]
  | ok instanceTypes =>
      by_cases hr : (checkInstanceAvailability cfg instanceTypes).1 = ""
      · rw [stepLoop_no_region cfg st env instanceTypes h hf hr]
        exact h
      · cases hl : launchInstance cfg env.net (checkInstanceAvailability cfg instanceTypes).1 with
        | error msg => rw [stepLoop_launch_err cfg st env instanceTypes msg h hf hr hl]
        | ok result =>
            rw [stepLoop_launch_ok cfg st env instanceTypes result h hf hr hl] at hs
            simp at hs

/-- A run started after the loop exited reports no successful launch. -/
theorem launchCount_runLoop_done (cfg : Config) (st : LoopState) (envs : List Env)
    (h : st.done = true) :
    launchCount (runLoop cfg st envs).2 = 0 := by
  rw [runLoop_done cfg st envs h]
  induction envs with
  | nil => simp [launchCount]
  | cons env envs _ => simp [launchCount, List.countP_cons, idleEvents]

/-- At most one successful launch in any run from a live state. -/
theorem launchCount_runLoop_le_one (cfg : Config) (envs : List Env) :
    ∀ st : LoopState, st.done = false → launchCount (runLoop cfg st envs).2 ≤ 1 := by
  induction envs with
  | nil => intro st h; simp [runLoop, launchCount]
  | cons env envs ih =>
      intro st h
      rw [runLoop_cons_snd, launchCount_cons]
      by_cases hs : (stepLoop cfg st env).2.launchSucceeded
      · have hd := stepLoop_succ_char cfg st env h hs
        rw [launchCount_runLoop_done cfg _ envs hd.1]
        simp [hs]
      · have hd := stepLoop_not_succ cfg st env h (by simpa using hs)
        have := ih _ hd
        simp [hs]
        omega

/-- A run that reports a successful launch ends with the loop exited. -/
theorem runLoop_done_of_count (cfg : Config) (envs : List Env) :
    ∀ st : LoopState, 1 ≤ launchCount (runLoop cfg st envs).2 →
      (runLoop cfg st envs).1.done = true := by
  induction envs with
  | nil => intro st h; simp [runLoop, launchCount] at h
  | cons env envs ih =>
      intro st h
      cases hdone : st.done with
      | true =>
          have h0 := launchCount_runLoop_done cfg st (env :: envs) hdone
          omega
      | false =>
          rw [runLoop_cons_fst]
          by_cases hs : (stepLoop cfg st env).2.launchSucceeded
          · have hd := stepLoop_succ_char cfg st env hdone hs
            rw [runLoop_done cfg _ envs hd.1]
            exact hd.1
          · apply ih
            rw [runLoop_cons_snd, launchCount_cons] at h
            simp [hs] at h
            exact h

/-- A configured bot, matching the defaults of the source. -/
def exampleConfig : Config :=
  { apiKey := "example-api-key", instanceTypeName := "gpu_1x_a6000"
    sshKeyName := "my-ssh-key", checkInterval := 30, errorWait := 10 }

/-- Catalog mapping the configured type to two regions with capacity. -/
def twoRegionCatalog : InstanceTypes :=
  ⟨[("gpu_1x_a6000",
     { regionsWithCapacityAvailable := [⟨"us-east-1"⟩, ⟨"us-west-2"⟩] })]⟩

/-- Catalog mapping the configured type to an empty region list. -/
def emptyRegionCatalog : InstanceTypes :=
  ⟨[("gpu_1x_a6000", { regionsWithCapacityAvailable := [] })]⟩

/-- A launch-result payload, as in the spec scenario. -/
def abcPayload : Json := Json.obj [("id", Json.str "abc123")]

/-- Iteration environment whose fetch fails with a connection error. -/
def envFetchErr : Env :=
  { fetch := .error "connection refused", net := fun _ => .ok Json.null }

/-- Iteration environment with capacity in two regions and a network that
answers the launch request with the example payload. -/
def envLaunchOk : Env :=
  { fetch := .ok twoRegionCatalog, net := fun _ => .ok abcPayload }

/-- C2: for every catalog in which the configured instance-type key maps to
a non-empty region list, checkInstanceAvailability returns exactly the name
of the first region in that list (with a nil error), regardless of the
list's length or ordering. -/
theorem c2_first_region_selected (cfg : Config) (instanceTypes : InstanceTypes)
    (d : InstanceTypeData) (r : Region) (rs : List Region)
    (hlookup : instanceTypes.data.lookup cfg.instanceTypeName = some d)
    (hregions : d.regionsWithCapacityAvailable = r :: rs) :
    checkInstanceAvailability cfg instanceTypes = (r.name, none) := by
  simp [checkInstanceAvailability, hlookup, hregions]

/-- Witness for C2: the spec scenario catalog with regions us-east-1 and
us-west-2 selects us-east-1. -/
theorem c2_first_region_selected_witness :
    checkInstanceAvailability exampleConfig twoRegionCatalog = ("us-east-1", none) :=
  c2_first_region_selected exampleConfig twoRegionCatalog
    { regionsWithCapacityAvailable := [⟨"us-east-1"⟩, ⟨"us-west-2"⟩] }
    ⟨"us-east-1"⟩ [⟨"us-west-2"⟩] rfl rfl

/-- C3: for every catalog lacking the configured instance-type key, and
likewise for one mapping it to an empty region list, the availability check
returns the empty region name, the iteration issues no launch call, sleeps
the poll interval, and the loop continues (is not done). -/
theorem c3_no_capacity_no_launch (cfg : Config) (st : LoopState) (env : Env)
    (instanceTypes : InstanceTypes)
    (h : st.done = false) (hf : env.fetch = .ok instanceTypes)
    (hnone : instanceTypes.data.lookup cfg.instanceTypeName = none ∨
      instanceTypes.data.lookup cfg.instanceTypeName =
        some { regionsWithCapacityAvailable := [] }) :
    checkInstanceAvailability cfg instanceTypes = ("", none) ∧
    (stepLoop cfg st env).2.launchCalled = false ∧
    (stepLoop cfg st env).2.slept = some cfg.checkInterval ∧
    (stepLoop cfg st env).1.done = false := by
  have hc : checkInstanceAvailability cfg instanceTypes = ("", none) := by
    rcases hnone with h1 | h1 <;> simp [checkInstanceAvailability, h1]
  rw [stepLoop_no_region cfg st env instanceTypes h hf (by rw [hc])]
  exact ⟨hc, rfl, rfl, h⟩

/-- Witness for C3: the spec scenario with an empty region list for the
configured type issues no launch and sleeps the 30-second poll interval. -/
theorem c3_no_capacity_no_launch_witness :
    checkInstanceAvailability exampleConfig emptyRegionCatalog = ("", none) ∧
    (stepLoop exampleConfig initLoopState
      { fetch := .ok emptyRegionCatalog, net := fun _ => .ok Json.null }).2.launchCalled
      = false ∧
    (stepLoop exampleConfig initLoopState
      { fetch := .ok emptyRegionCatalog, net := fun _ => .ok Json.null }).2.slept
      = some exampleConfig.checkInterval ∧
    (stepLoop exampleConfig initLoopState
      { fetch := .ok emptyRegionCatalog, net := fun _ => .ok Json.null }).1.done
      = false :=
  c3_no_capacity_no_launch exampleConfig initLoopState
    { fetch := .ok emptyRegionCatalog, net := fun _ => .ok Json.null }
    emptyRegionCatalog rfl rfl (Or.inr rfl)

/-- C5: the launch request body is exactly the payload with the chosen
region, the configured instance type, the singleton ssh key list, and
quantity 1; and launchInstance passes the network's successful JSON
response through verbatim. -/
theorem c5_launch_request_shape (cfg : Config) (net : HttpRequest → Except String Json)
    (regionName : String) :
    mkLaunchPayload cfg regionName =
      { regionName := regionName, instanceTypeName := cfg.instanceTypeName
        sshKeyNames := [cfg.sshKeyName], quantity := 1 } ∧
    (launchRequest cfg regionName).body = some (Json.obj
      [("region_name", Json.str regionName),
       ("instance_type_name", Json.str cfg.instanceTypeName),
       ("ssh_key_names", Json.arr [Json.str cfg.sshKeyName]),
       ("quantity", Json.num 1)]) ∧
    (∀ result, net (launchRequest cfg regionName) = .ok result →
      launchInstance cfg net regionName = .ok result) := by
  refine ⟨rfl, rfl, ?_⟩
  intro result hnet
  simp [launchInstance, hnet]

/-- Witness for C5: a network answering with the example payload has that
payload passed through verbatim. -/
theorem c5_launch_request_shape_witness :
    launchInstance exampleConfig (fun _ => Except.ok abcPayload) "us-east-1" =
      Except.ok abcPayload ∧
    (launchRequest exampleConfig "us-east-1").body = some (Json.obj
      [("region_name", Json.str "us-east-1"),
       ("instance_type_name", Json.str "gpu_1x_a6000"),
       ("ssh_key_names", Json.arr [Json.str "my-ssh-key"]),
       ("quantity", Json.num 1)]) :=
  ⟨(c5_launch_request_shape exampleConfig (fun _ => Except.ok abcPayload)
      "us-east-1").2.2 abcPayload rfl,
   (c5_launch_request_shape exampleConfig (fun _ => Except.ok abcPayload)
      "us-east-1").2.1⟩

/-- C8: checkInstanceAvailability returns a nil error for every catalog, so
after a successful fetch an iteration either issues a launch call or sleeps
the poll interval; the loop's error branch after the check is unreachable. -/
theorem c8_check_never_errs (cfg : Config) :
    (∀ instanceTypes, (checkInstanceAvailability cfg instanceTypes).2 = none) ∧
    (∀ (st : LoopState) (env : Env) instanceTypes,
      st.done = false → env.fetch = .ok instanceTypes →
      (stepLoop cfg st env).2.launchCalled = true ∨
      (stepLoop cfg st env).2.slept = some cfg.checkInterval) := by
  refine ⟨fun instanceTypes => checkInstanceAvailability_snd cfg instanceTypes, ?_⟩
  intro st env instanceTypes h hf
  by_cases hr : (checkInstanceAvailability cfg instanceTypes).1 = ""
  · right
    rw [stepLoop_no_region cfg st env instanceTypes h hf hr]
  · left
    cases hl : launchInstance cfg env.net (checkInstanceAvailability cfg instanceTypes).1 with
    | error msg => rw [stepLoop_launch_err cfg st env instanceTypes msg h hf hr hl]
    | ok result => rw [stepLoop_launch_ok cfg st env instanceTypes result h hf hr hl]

/-- Witness for C8: on the two-region catalog the check's error is nil and
the iteration issues a launch call. -/
theorem c8_check_never_errs_witness :
    (checkInstanceAvailability exampleConfig twoRegionCatalog).2 = none ∧
    ((stepLoop exampleConfig initLoopState envLaunchOk).2.launchCalled = true ∨
     (stepLoop exampleConfig initLoopState envLaunchOk).2.slept =
       some exampleConfig.checkInterval) :=
  ⟨(c8_check_never_errs exampleConfig).1 twoRegionCatalog,
   (c8_check_never_errs exampleConfig).2 initLoopState envLaunchOk twoRegionCatalog
     rfl rfl⟩

/-- Catalog whose first region with capacity has the empty string as name. -/
def emptyNameCatalog : InstanceTypes :=
  ⟨[("gpu_1x_a6000",
     { regionsWithCapacityAvailable := [⟨""⟩, ⟨"us-west-2"⟩] })]⟩

/-- Iteration environment serving the empty-name catalog. -/
def envEmptyName : Env :=
  { fetch := .ok emptyNameCatalog, net := fun _ => .ok Json.null }

/-- C9: the empty string is an in-band sentinel for no availability: for a
catalog whose configured type maps to a non-empty region list whose first
region is named by the empty string, the loop issues no launch call and
sleeps the poll interval, exactly as if no capacity existed. -/
theorem c9_empty_name_is_sentinel :
    emptyNameCatalog.data.lookup exampleConfig.instanceTypeName =
      some { regionsWithCapacityAvailable := [⟨""⟩, ⟨"us-west-2"⟩] } ∧
    (stepLoop exampleConfig initLoopState envEmptyName).2.launchCalled = false ∧
    (stepLoop exampleConfig initLoopState envEmptyName).2.slept =
      some exampleConfig.checkInterval ∧
    (stepLoop exampleConfig initLoopState envEmptyName).1.done = false :=
  ⟨rfl, rfl, rfl, rfl⟩

/-- launchCount distributes over appended event lists. -/
theorem launchCount_append (l1 l2 : List IterEvents) :
    launchCount (l1 ++ l2) = launchCount l1 + launchCount l2 := by
  simp [launchCount, List.countP_append]

/-- C1: at most one successful launch is ever issued: in every execution,
once launchInstance returns without error the loop body exits immediately
(no sleep, done), no later iteration issues a fetch or launch call, and the
whole run contains exactly that one successful launch. -/
theorem c1_at_most_one_launch (cfg : Config) (envs1 : List Env) (env : Env)
    (envs2 : List Env)
    (hsucc : (stepLoop cfg (runLoop cfg initLoopState envs1).1 env).2.launchSucceeded
      = true) :
    (stepLoop cfg (runLoop cfg initLoopState envs1).1 env).1.done = true ∧
    (stepLoop cfg (runLoop cfg initLoopState envs1).1 env).2.slept = none ∧
    (∀ ev ∈ (runLoop cfg
        (stepLoop cfg (runLoop cfg initLoopState envs1).1 env).1 envs2).2,
      ev.fetchCalled = false ∧ ev.launchCalled = false) ∧
    launchCount (runLoop cfg initLoopState (envs1 ++ env :: envs2)).2 = 1 := by
  have hlive : (runLoop cfg initLoopState envs1).1.done = false := by
    cases hdd : (runLoop cfg initLoopState envs1).1.done with
    | false => rfl
    | true =>
        rw [stepLoop_done cfg _ env hdd] at hsucc
        simp [idleEvents] at hsucc
  have hchar := stepLoop_succ_char cfg _ env hlive hsucc
  refine ⟨hchar.1, hchar.2, ?_, ?_⟩
  · intro ev hev
    rw [runLoop_done cfg _ envs2 hchar.1] at hev
    simp only [List.mem_map] at hev
    obtain ⟨a, _, hae⟩ := hev
    rw [← hae]
    exact ⟨rfl, rfl⟩
  · have hpre : launchCount (runLoop cfg initLoopState envs1).2 = 0 := by
      by_contra hne
      have h1 : 1 ≤ launchCount (runLoop cfg initLoopState envs1).2 :=
        Nat.one_le_iff_ne_zero.mpr hne
      have hd := runLoop_done_of_count cfg envs1 initLoopState h1
      rw [hd] at hlive
      exact absurd hlive (by simp)
    have h2 : launchCount (runLoop cfg (runLoop cfg initLoopState envs1).1
        (env :: envs2)).2 = 1 := by
      rw [runLoop_cons_snd, launchCount_cons,
          launchCount_runLoop_done cfg _ envs2 hchar.1]
      simp [hsucc]
    calc launchCount (runLoop cfg initLoopState (envs1 ++ env :: envs2)).2
        = launchCount ((runLoop cfg initLoopState envs1).2 ++
            (runLoop cfg (runLoop cfg initLoopState envs1).1 (env :: envs2)).2) := by
          rw [runLoop_append]
      _ = launchCount (runLoop cfg initLoopState envs1).2 +
            launchCount (runLoop cfg (runLoop cfg initLoopState envs1).1
              (env :: envs2)).2 := launchCount_append _ _
      _ = 1 := by rw [hpre, h2]

/-- Witness for C1: a run whose first iteration launches successfully has
exactly one successful launch over the whole schedule, and the loop is done
from then on. -/
theorem c1_at_most_one_launch_witness :
    launchCount (runLoop exampleConfig initLoopState
      ([] ++ envLaunchOk :: [envLaunchOk, envFetchErr])).2 = 1 ∧
    (stepLoop exampleConfig (runLoop exampleConfig initLoopState []).1
      envLaunchOk).1.done = true :=
  ⟨(c1_at_most_one_launch exampleConfig [] envLaunchOk [envLaunchOk, envFetchErr]
      rfl).2.2.2,
   (c1_at_most_one_launch exampleConfig [] envLaunchOk [envLaunchOk, envFetchErr]
      rfl).1⟩

/-- C4: whenever a fetch call or a launch call fails, the iteration sleeps
the configured error-retry interval and the loop returns to polling
(not done); the only transition that exits the loop is a successful
launch. -/
theorem c4_failures_never_terminate (cfg : Config) (st : LoopState) (env : Env)
    (h : st.done = false) :
    (∀ msg, env.fetch = .error msg →
      (stepLoop cfg st env).2.slept = some cfg.errorWait ∧
      (stepLoop cfg st env).1.done = false) ∧
    (∀ instanceTypes msg, env.fetch = .ok instanceTypes →
      (checkInstanceAvailability cfg instanceTypes).1 ≠ "" →
      launchInstance cfg env.net (checkInstanceAvailability cfg instanceTypes).1 =
        .error msg →
      (stepLoop cfg st env).2.slept = some cfg.errorWait ∧
      (stepLoop cfg st env).1.done = false) ∧
    ((stepLoop cfg st env).1.done = true →
      (stepLoop cfg st env).2.launchSucceeded = true) := by
  refine ⟨?_, ?_, ?_⟩
  · intro msg hf
    rw [stepLoop_fetch_err cfg st env msg h hf]
    exact ⟨rfl, rfl⟩
  · intro instanceTypes msg hf hr hl
    rw [stepLoop_launch_err cfg st env instanceTypes msg h hf hr hl]
    exact ⟨rfl, rfl⟩
  · intro hdone
    cases hs : (stepLoop cfg st env).2.launchSucceeded with
    | true => rfl
    | false =>
        rw [stepLoop_not_succ cfg st env h hs] at hdone
        simp at hdone

/-- Witness for C4: a connection error on fetch sleeps the 10-second error
interval and leaves the loop polling. -/
theorem c4_failures_never_terminate_witness :
    (stepLoop exampleConfig initLoopState envFetchErr).2.slept =
      some exampleConfig.errorWait ∧
    (stepLoop exampleConfig initLoopState envFetchErr).1.done = false :=
  (c4_failures_never_terminate exampleConfig initLoopState envFetchErr rfl).1
    "connection refused" rfl

/-- C6: every loop transition updates HealthState as specified: a failed
fetch or failed launch sets status error with the error message and no
result; a successful launch sets status instance launched with the result
payload and an empty error, and the state persists unchanged once the loop
has terminated. -/
theorem c6_health_transitions (cfg : Config) (st : LoopState) (env : Env)
    (h : st.done = false) :
    (∀ msg, env.fetch = .error msg →
      (stepLoop cfg st env).1.health =
        { status := "error", result := none, error := msg }) ∧
    (∀ instanceTypes msg, env.fetch = .ok instanceTypes →
      (checkInstanceAvailability cfg instanceTypes).1 ≠ "" →
      launchInstance cfg env.net (checkInstanceAvailability cfg instanceTypes).1 =
        .error msg →
      (stepLoop cfg st env).1.health =
        { status := "error", result := none, error := msg }) ∧
    (∀ instanceTypes result, env.fetch = .ok instanceTypes →
      (checkInstanceAvailability cfg instanceTypes).1 ≠ "" →
      launchInstance cfg env.net (checkInstanceAvailability cfg instanceTypes).1 =
        .ok result →
      (stepLoop cfg st env).1.health =
        { status := "instance launched", result := some result, error := "" } ∧
      (stepLoop cfg st env).1.done = true) ∧
    (∀ envs, (stepLoop cfg st env).1.done = true →
      (runLoop cfg (stepLoop cfg st env).1 envs).1 = (stepLoop cfg st env).1) := by
  refine ⟨?_, ?_, ?_, ?_⟩
  · intro msg hf
    rw [stepLoop_fetch_err cfg st env msg h hf]
  · intro instanceTypes msg hf hr hl
    rw [stepLoop_launch_err cfg st env instanceTypes msg h hf hr hl]
  · intro instanceTypes result hf hr hl
    rw [stepLoop_launch_ok cfg st env instanceTypes result h hf hr hl]
    exact ⟨rfl, rfl⟩
  · intro envs hdone
    rw [runLoop_done cfg _ envs hdone]

/-- Witness for C6: a connection error yields the error health state; a
successful launch with the example payload yields the instance-launched
health state carrying it. -/
theorem c6_health_transitions_witness :
    (stepLoop exampleConfig initLoopState envFetchErr).1.health =
      { status := "error", result := none, error := "connection refused" } ∧
    (stepLoop exampleConfig initLoopState envLaunchOk).1.health =
      { status := "instance launched", result := some abcPayload, error := "" } :=
  ⟨(c6_health_transitions exampleConfig initLoopState envFetchErr rfl).1
      "connection refused" rfl,
   ((c6_health_transitions exampleConfig initLoopState envLaunchOk rfl).2.2.1
      twoRegionCatalog abcPayload rfl (by decide) rfl).1⟩

/-- Counterexample for C7: both implementation variants default the poll
interval to the same value, 30 seconds, refuting the claim that one variant
defaults the poll interval differently from the other. -/
theorem c7_poll_default_same_in_both_variants :
    (initServerConfig emptyEnv).checkInterval = (initConfig emptyEnv).checkInterval ∧
    (initServerConfig emptyEnv).checkInterval = 30 ∧
    (initConfig emptyEnv).checkInterval = 30 :=
  ⟨rfl, rfl, rfl⟩

/-- C7 (amended): the poll interval defaults to 30 seconds in both
variants, the error-retry interval defaults to 10 seconds in both, and the
listen port defaults to 5000 in the variant that serves health. -/
theorem c7_config_defaults :
    (initConfig emptyEnv).checkInterval = 30 ∧
    (initServerConfig emptyEnv).checkInterval = 30 ∧
    (initConfig emptyEnv).errorWait = 10 ∧
    (initServerConfig emptyEnv).errorWait = 10 ∧
    (initServerConfig emptyEnv).port = 5000 :=
  ⟨rfl, rfl, rfl, rfl, rfl⟩

/-- C10: for each integer configuration variable, an absent, non-numeric,
or zero value silently yields the default, because the Atoi error is
discarded and only the zero value is checked; any value parsing to a
nonzero integer, negative ones included, is kept as-is.  The loop intervals
and the port are read this way with defaults 30, 10 and 5000. -/
theorem c10_int_config_defaulting (env : String → Option String) (key : String)
    (dflt : Int) (s : String) :
    (env key = none → initIntVar env key dflt = dflt) ∧
    (env key = some s → parseGoInt s = none → initIntVar env key dflt = dflt) ∧
    (env key = some s → parseGoInt s = some 0 → initIntVar env key dflt = dflt) ∧
    (∀ n : Int, env key = some s → parseGoInt s = some n → n ≠ 0 →
      initIntVar env key dflt = n) ∧
    (initConfig env).checkInterval = initIntVar env "CHECK_INTERVAL_SECONDS" 30 ∧
    (initConfig env).errorWait = initIntVar env "ERROR_WAIT_SECONDS" 10 ∧
    (initServerConfig env).checkInterval = initIntVar env "CHECK_INTERVAL_SECONDS" 30 ∧
    (initServerConfig env).errorWait = initIntVar env "ERROR_WAIT_SECONDS" 10 ∧
    (initServerConfig env).port = initIntVar env "PORT" 5000 := by
  have hempty : parseGoInt "" = none := rfl
  refine ⟨?_, ?_, ?_, ?_, rfl, rfl, rfl, rfl, rfl⟩
  · intro h
    simp [initIntVar, goGetenv, goAtoi, h, hempty]
  · intro h hp
    simp [initIntVar, goGetenv, goAtoi, h, hp]
  · intro h hp
    simp [initIntVar, goGetenv, goAtoi, h, hp]
  · intro n h hp hn
    simp [initIntVar, goGetenv, goAtoi, h, hp, hn]

/-- Environment supplying a negative poll interval and nothing else. -/
def envNeg : String → Option String :=
  fun k => if k = "CHECK_INTERVAL_SECONDS" then some "-5" else none

/-- Witness for C10: a supplied value of -5 is kept as-is, while the absent
error-wait variable falls back to its default of 10. -/
theorem c10_int_config_defaulting_witness :
    initIntVar envNeg "CHECK_INTERVAL_SECONDS" 30 = -5 ∧
    initIntVar envNeg "ERROR_WAIT_SECONDS" 10 = 10 :=
  ⟨(c10_int_config_defaulting envNeg "CHECK_INTERVAL_SECONDS" 30 "-5").2.2.2.1
      (-5) rfl rfl (by decide),
   (c10_int_config_defaulting envNeg "ERROR_WAIT_SECONDS" 10 "").1 rfl⟩
